import Mathlib

/-!
Shallow embedding of the two decision pipelines of this repository:

* `pylabel/automated_labeler.py` — the rule-based moderation decision
  engine (`AutomatedLabeler.moderate_post`, `is_dog_image`,
  `fetch_post_content`), which labels a post from lexicon substring
  matches, a news domain→source map, and perceptual-hash image matches.

* `policy_proposal_labeler.py` (the `submission` variant, whose
  `_process_and_label_post` matches the earlier inline variant) — the
  classifier-driven category dispatcher that turns a classifier output
  string into a remediation action and a final label.

Python strings are Lean `String`; Python `w in t` substring containment
is infix containment on the character lists; Python `str.lower` is a
character-wise map.  Network and image I/O are resolved values: the
fetch-and-hash of a candidate image is an `Option Hash` (`none` when the
fetch or hash raised), a post fetch is an `Option` of text and resolved
images.  Perceptual hashes are an arbitrary type `Hash` with a black-box
distance function into `ℚ`, matching the spec treatment of the hasher as
an external collaborator.  The Python `set` of labels is a
`Finset String` (the final `list(labels)` conversion has unspecified
order, so the set is the meaningful value).  Side effects of the
dispatcher (support messages, review flags, output list appends) are
explicit state in `ProcState`.
-/

/-- Python `str.lower`: lowercase every character of the string. -/
def py_lower (s : String) : String := ⟨s.data.map Char.toLower⟩

/-- Python substring containment `w in t`: the characters of `w` occur
contiguously inside the characters of `t`. -/
def str_contains (t w : String) : Bool := decide (w.data <:+: t.data)

/-- Constant `T_AND_S_LABEL` of `automated_labeler.py`. -/
def T_AND_S_LABEL : String := "t-and-s"

/-- Constant `DOG_LABEL` of `automated_labeler.py`. -/
def DOG_LABEL : String := "dog"

/-- Constant `THRESH = 0.3` of `automated_labeler.py`, as a rational. -/
def THRESH : ℚ := 3 / 10

/-- The lexicon containment test used twice in `moderate_post`:
`any(term in post_content for term in terms)`. -/
def lexicon_match (post_content : String) (terms : List String) : Bool :=
  terms.any (fun w => str_contains post_content w)

/-- The read-only reference data loaded by `AutomatedLabeler.__init__`:
T&S word list, T&S domain list, news domain→source map (an association
list, recording the dict iteration order), and the dog reference hashes. -/
structure LabelerConfig (Hash : Type) where
  t_and_s_words : List String
  t_and_s_domains : List String
  news_domains : List (String × String)
  dog_hashes : List Hash

/-- `is_dog_image`: the fetch-and-hash of the candidate image is resolved
to `Option Hash` (`none` when any exception was raised, in which case the
`except` branch returns `False`); on success the hash is compared by
distance against every reference hash, `≤ THRESH` counting as a match. -/
def is_dog_image {Hash : Type} (dist : Hash → Hash → ℚ) (dog_hashes : List Hash)
    (img : Option Hash) : Bool :=
  match img with
  | none => false
  | some h => dog_hashes.any (fun d => decide (dist h d ≤ THRESH))

/-- The text-only part of `moderate_post`: the T&S word/domain check and
the news-domain loop, building up the label set. -/
def text_labels {Hash : Type} (cfg : LabelerConfig Hash) (post_content : String) :
    Finset String :=
  let labels0 : Finset String := ∅
  let labels1 :=
    if lexicon_match post_content cfg.t_and_s_words
        || lexicon_match post_content cfg.t_and_s_domains
    then insert T_AND_S_LABEL labels0 else labels0
  cfg.news_domains.foldl
    (fun acc dl => if str_contains post_content dl.1 then insert dl.2 acc else acc)
    labels1

/-- Body of `moderate_post` after the fetch: text checks, then the image
loop, which adds `DOG_LABEL` and breaks at the first matching image. -/
def moderate_post_content {Hash : Type} (dist : Hash → Hash → ℚ)
    (cfg : LabelerConfig Hash) (post_content : String)
    (image_results : List (Option Hash)) : Finset String :=
  let labels := text_labels cfg post_content
  if image_results.any (fun img => is_dog_image dist cfg.dog_hashes img)
  then insert DOG_LABEL labels else labels

/-- `fetch_post_content`: a failed fetch (`none`) is resolved to empty
text and no images by the `except` branch. -/
def fetch_post_content {Hash : Type}
    (fetched : Option (String × List (Option Hash))) :
    String × List (Option Hash) :=
  match fetched with
  | some content => content
  | none => ("", [])

/-- `moderate_post`: fetch the post content (already resolved to an
`Option`), then run the decision engine on it. -/
def moderate_post {Hash : Type} (dist : Hash → Hash → ℚ) (cfg : LabelerConfig Hash)
    (fetched : Option (String × List (Option Hash))) : Finset String :=
  let pc := fetch_post_content fetched
  moderate_post_content dist cfg pc.1 pc.2

/-- The image loop of `moderate_post` with the `temp_image.jpg` side
effect made explicit: the file state is the hash of whatever was last
written to `temp_image.jpg` (`none` if nothing yet).  A successful fetch
overwrites the file before hashing; a failed fetch leaves it unchanged;
the loop stops at the first match. -/
def run_images_fs {Hash : Type} (dist : Hash → Hash → ℚ) (dog_hashes : List Hash) :
    List (Option Hash) → Option Hash → Bool × Option Hash
  | [], fs => (false, fs)
  | img :: rest, fs =>
    match img with
    | none => run_images_fs dist dog_hashes rest fs
    | some h =>
      if dog_hashes.any (fun d => decide (dist h d ≤ THRESH))
      then (true, some h)
      else run_images_fs dist dog_hashes rest (some h)

/-- `moderate_post` threading the `temp_image.jpg` file state, returning
the label set together with the final file state. -/
def moderate_post_fs {Hash : Type} (dist : Hash → Hash → ℚ)
    (cfg : LabelerConfig Hash) (post_content : String)
    (image_results : List (Option Hash)) (fs : Option Hash) :
    Finset String × Option Hash :=
  let labels := text_labels cfg post_content
  let r := run_images_fs dist cfg.dog_hashes image_results fs
  (if r.1 then insert DOG_LABEL labels else labels, r.2)

/-- A fetched Bluesky post as used by `_process_and_label_post`:
`post.uri`, `post.author.display_name`, `post.record.created_at`,
`post.record.text`. -/
structure Post where
  uri : String
  author : String
  created_at : String
  text : String

/-- One record appended to `saved_posts` by `_process_and_label_post`. -/
structure SavedPost where
  uri : String
  author : String
  timestamp : String
  content : String
  action_taken : String
  label : String
deriving DecidableEq

/-- Result of the three sequential category checks of
`_process_and_label_post`: the final label, the recorded action, and the
side effects (support-message recipient, flagged uri), if any. -/
structure DispatchResult where
  true_label : String
  action_taken : String
  message_to : Option String
  flag_uri : Option String
deriving DecidableEq

/-- The nine classification categories enumerated in the
`classify_post` prompt. -/
def CATEGORIES : List String :=
  ["Personal Health Disclosure", "Risk of Harm to Self", "Risk of Harm to Others",
   "Health Advice", "Medical News", "Satire/Parody", "Potential Misinformation",
   "Medical Question", "Other"]

/-- The category-to-action logic of `_process_and_label_post`: start with
`true_label = label` and `action_taken = ""`, then the three sequential
`if label == ...` checks, each clearing the label and (for the two risk
categories) recording its action and side effect. -/
def dispatch (lbl author uri : String) : DispatchResult :=
  let r0 : DispatchResult :=
    { true_label := lbl, action_taken := "", message_to := none, flag_uri := none }
  let r1 := if lbl = "Other" then { r0 with true_label := "" } else r0
  let r2 :=
    if lbl = "Risk of Harm to Self" then
      { r1 with
          message_to := some author
          action_taken := "Message sent"
          true_label := "" }
    else r1
  let r3 :=
    if lbl = "Risk of Harm to Others" then
      { r2 with
          flag_uri := some uri
          action_taken := "Manual review"
          true_label := "" }
    else r2
  r3

/-- Mutable state touched by `_process_and_label_post`: the two output
lists it appends to, plus the emitted side effects (recipients of
support messages, uris flagged for review). -/
structure ProcState where
  labeled_posts : List (String × List String)
  saved_posts : List SavedPost
  messages_sent : List String
  flags_sent : List String

/-- `_process_and_label_post`: lowercase the post text, classify it (the
classifier is a black-box `String → String`), run the category checks,
then append one entry to `labeled_posts` and one to `saved_posts`. -/
def process_and_label_post (classify : String → String) (post : Post)
    (st : ProcState) : ProcState :=
  let post_content := py_lower post.text
  let author := post.author
  let timestamp := post.created_at
  let r := dispatch (classify post_content) author post.uri
  { labeled_posts := st.labeled_posts ++ [(post.uri, [r.true_label])]
    saved_posts := st.saved_posts ++
      [{ uri := post.uri, author := author, timestamp := timestamp,
         content := post_content, action_taken := r.action_taken,
         label := r.true_label }]
    messages_sent := st.messages_sent ++
      (match r.message_to with | some a => [a] | none => [])
    flags_sent := st.flags_sent ++
      (match r.flag_uri with | some u => [u] | none => []) }

/-- How many of the four mutually exclusive per-post outcomes hold for a
dispatch result: non-empty final label, support message sent, flag sent,
or none of these. -/
def outcome_count (r : DispatchResult) : Nat :=
  (if r.true_label ≠ "" then 1 else 0) +
  (if r.message_to.isSome then 1 else 0) +
  (if r.flag_uri.isSome then 1 else 0) +
  (if r.true_label = "" ∧ r.message_to = none ∧ r.flag_uri = none then 1 else 0)

/-- A permutation of a list leaves `List.any` unchanged. -/
theorem any_eq_of_perm {α : Type} {l1 l2 : List α} (h : l1.Perm l2) (p : α → Bool) :
    l1.any p = l2.any p := by
  cases h1 : l1.any p <;> cases h2 : l2.any p <;> try rfl
  · rw [List.any_eq_true] at h2
    rw [List.any_eq_false] at h1
    obtain ⟨x, hx, hpx⟩ := h2
    exact absurd hpx (h1 x (h.mem_iff.mpr hx))
  · rw [List.any_eq_true] at h1
    rw [List.any_eq_false] at h2
    obtain ⟨x, hx, hpx⟩ := h1
    exact absurd hpx (h2 x (h.mem_iff.mp hx))

/-- Characterization of `lexicon_match` as existence of a contained term. -/
theorem lexicon_match_iff (t : String) (W : List String) :
    lexicon_match t W = true ↔ ∃ w ∈ W, w.data <:+: t.data := by
  simp [lexicon_match, str_contains, List.any_eq_true]

/-- A nonempty term is never contained in the empty text. -/
theorem str_contains_empty_text (w : String) (hw : w ≠ "") :
    str_contains "" w = false := by
  rw [← Bool.not_eq_true, str_contains, decide_eq_true_eq]
  intro hc
  exact hw (String.ext (List.infix_nil.mp hc))

/-- With every term nonempty, the lexicon test on empty text is false. -/
theorem lexicon_match_empty_text (W : List String) (h : ∀ w ∈ W, w ≠ "") :
    lexicon_match "" W = false := by
  rw [lexicon_match, List.any_eq_false]
  intro w hw
  simp [str_contains_empty_text w (h w hw)]

/-- Membership in the news-domain fold of `text_labels`. -/
theorem mem_news_foldl (t : String) (l : List (String × String)) (init : Finset String)
    (x : String) :
    x ∈ l.foldl
        (fun acc dl => if str_contains t dl.1 then insert dl.2 acc else acc) init ↔
      x ∈ init ∨ ∃ p ∈ l, str_contains t p.1 = true ∧ x = p.2 := by
  induction l generalizing init with
  | nil => simp
  | cons pp rest ih =>
    rw [List.foldl_cons, ih]
    by_cases hc : str_contains t pp.1 = true
    · simp only [hc, if_pos, Finset.mem_insert, List.mem_cons]
      constructor
      · rintro ((rfl | hx) | ⟨p, hp, hcp, rfl⟩)
        · exact Or.inr ⟨pp, Or.inl rfl, hc, rfl⟩
        · exact Or.inl hx
        · exact Or.inr ⟨p, Or.inr hp, hcp, rfl⟩
      · rintro (hx | ⟨p, (rfl | hp), hcp, rfl⟩)
        · exact Or.inl (Or.inr hx)
        · exact Or.inl (Or.inl rfl)
        · exact Or.inr ⟨p, hp, hcp, rfl⟩
    · rw [if_neg hc]
      simp only [List.mem_cons]
      constructor
      · rintro (hx | ⟨p, hp, hcp, rfl⟩)
        · exact Or.inl hx
        · exact Or.inr ⟨p, Or.inr hp, hcp, rfl⟩
      · rintro (hx | ⟨p, (rfl | hp), hcp, rfl⟩)
        · exact Or.inl hx
        · exact absurd hcp hc
        · exact Or.inr ⟨p, hp, hcp, rfl⟩

/-- The news-domain fold is the identity when no domain is contained. -/
theorem news_foldl_no_match (t : String) (l : List (String × String))
    (init : Finset String) (h : ∀ p ∈ l, str_contains t p.1 = false) :
    l.foldl (fun acc dl => if str_contains t dl.1 then insert dl.2 acc else acc) init
      = init := by
  induction l generalizing init with
  | nil => rfl
  | cons pp rest ih =>
    rw [List.foldl_cons, if_neg (by simp [h pp (List.mem_cons_self pp rest)])]
    exact ih init (fun p hp => h p (List.mem_cons_of_mem pp hp))

/-- The match flag computed by the file-threading image loop does not
depend on the incoming file state and equals the any-match test. -/
theorem run_images_fs_fst {Hash : Type} (dist : Hash → Hash → ℚ) (refs : List Hash)
    (imgs : List (Option Hash)) (fs : Option Hash) :
    (run_images_fs dist refs imgs fs).1 =
      imgs.any (fun img => is_dog_image dist refs img) := by
  induction imgs generalizing fs with
  | nil => rfl
  | cons img rest ih =>
    cases img with
    | none => simp [run_images_fs, is_dog_image, ih]
    | some h =>
      by_cases hc : refs.any (fun d => decide (dist h d ≤ THRESH)) = true
      · simp [run_images_fs, hc, is_dog_image]
      · simp only [Bool.not_eq_true] at hc
        simp [run_images_fs, hc, is_dog_image, ih]

/-- Claim C1 as stated is false on the code: for the unrecognized
classifier output "Spam" the dispatcher indeed sends no support message
and raises no flag, but the final emitted label is "Spam", not the empty
string. -/
theorem C1_counterexample :
    "Spam" ∉ CATEGORIES ∧
    (dispatch "Spam" "alice" "at://p1").message_to = none ∧
    (dispatch "Spam" "alice" "at://p1").flag_uri = none ∧
    (dispatch "Spam" "alice" "at://p1").true_label = "Spam" ∧
    "Spam" ≠ "" := by decide

/-- Claim C1, amended: for every classifier output string outside the
nine enumerated categories, the dispatcher sends no support message,
raises no flag, records no action, and emits the classifier string
itself as the final label (so the label is the empty string only when
the classifier string is). -/
theorem C1_unrecognized_is_passthrough (lbl author uri : String)
    (h : lbl ∉ CATEGORIES) :
    dispatch lbl author uri =
      { true_label := lbl, action_taken := "", message_to := none,
        flag_uri := none } := by
  have h1 : ¬ lbl = "Other" := by rintro rfl; exact h (by decide)
  have h2 : ¬ lbl = "Risk of Harm to Self" := by rintro rfl; exact h (by decide)
  have h3 : ¬ lbl = "Risk of Harm to Others" := by rintro rfl; exact h (by decide)
  simp [dispatch, h1, h2, h3]

/-- Witness for the amended claim C1 at the concrete input "Spam". -/
theorem C1_witness :
    dispatch "Spam" "bob" "at://p2" =
      { true_label := "Spam", action_taken := "", message_to := none,
        flag_uri := none } :=
  C1_unrecognized_is_passthrough "Spam" "bob" "at://p2" (by decide)

/-- Claim C2 as stated is false on the code: the term "crypto" is a
substring of the lowercased text of "CRYPTO", yet the lexicon test of
`moderate_post` returns false, because the post text is never
lowercased before the containment checks. -/
theorem C2_counterexample :
    str_contains (py_lower "CRYPTO") "crypto" = true ∧
    lexicon_match "CRYPTO" ["crypto"] = false := by decide

/-- Claim C2, amended: the lexicon match returns true iff some term of W
occurs as a substring of the post text itself (taken as is, not
lowercased, so matching is case-sensitive in T), and an empty W yields
false for every text. -/
theorem C2_case_sensitive_containment (t : String) (W : List String) :
    (lexicon_match t W = true ↔ ∃ w ∈ W, w.data <:+: t.data) ∧
    lexicon_match t [] = false :=
  ⟨lexicon_match_iff t W, rfl⟩

/-- Claim C3: for a candidate image whose hash was computed, against a
non-empty reference set, the perceptual match returns true iff the
distance to some reference hash is at most `THRESH` (a distance exactly
equal to the threshold counts, since the comparison is `≤`). -/
theorem C3_image_match_iff {Hash : Type} (dist : Hash → Hash → ℚ)
    (refs : List Hash) (h : Hash) (_hne : refs ≠ []) :
    is_dog_image dist refs (some h) = true ↔ ∃ r ∈ refs, dist h r ≤ THRESH := by
  simp [is_dog_image, List.any_eq_true]

/-- Witness for claim C3 at a concrete input sitting exactly at the
threshold distance, which counts as a match. -/
theorem C3_witness :
    is_dog_image (fun _ _ => (3 / 10 : ℚ)) [(0 : ℕ)] (some 0) = true :=
  (C3_image_match_iff (fun _ _ => (3 / 10 : ℚ)) [0] 0 (by decide)).mpr
    ⟨0, by decide, by norm_num [THRESH]⟩

/-- Claim C4: an image whose fetch-and-hash failed is a definite
non-match, and the decision engine produces the same label set as if
that image were absent — the remaining images are still processed. -/
theorem C4_failed_image_is_non_match {Hash : Type} (dist : Hash → Hash → ℚ)
    (cfg : LabelerConfig Hash) (t : String) (pre post : List (Option Hash)) :
    is_dog_image dist cfg.dog_hashes none = false ∧
    moderate_post_content dist cfg t (pre ++ none :: post) =
      moderate_post_content dist cfg t (pre ++ post) := by
  refine ⟨rfl, ?_⟩
  simp [moderate_post_content, is_dog_image]

/-- Claim C5: a failed post fetch is resolved to empty text and no
images, and (for reference lexicons whose entries are nonempty strings,
as loaded from the CSV word and domain columns) `moderate_post` then
returns the empty label set rather than failing. -/
theorem C5_fetch_failure_empty_labels {Hash : Type} (dist : Hash → Hash → ℚ)
    (cfg : LabelerConfig Hash)
    (hw : ∀ w ∈ cfg.t_and_s_words, w ≠ "")
    (hd : ∀ w ∈ cfg.t_and_s_domains, w ≠ "")
    (hn : ∀ p ∈ cfg.news_domains, p.1 ≠ "") :
    @fetch_post_content Hash none = ("", []) ∧
    moderate_post dist cfg none = ∅ := by
  refine ⟨rfl, ?_⟩
  show moderate_post_content dist cfg "" [] = ∅
  rw [moderate_post_content]
  simp only [List.any_nil, if_neg Bool.false_ne_true]
  rw [text_labels]
  simp only [lexicon_match_empty_text cfg.t_and_s_words hw,
    lexicon_match_empty_text cfg.t_and_s_domains hd, Bool.or_self,
    if_neg Bool.false_ne_true]
  exact news_foldl_no_match "" cfg.news_domains ∅
    (fun p hp => str_contains_empty_text p.1 (hn p hp))

/-- Witness for claim C5 at a concrete configuration. -/
theorem C5_witness :
    (∀ w ∈ (["crypto"] : List String), w ≠ "") ∧
    (∀ w ∈ (["bad.com"] : List String), w ≠ "") ∧
    (∀ p ∈ ([("nytimes.com", "New York Times")] : List (String × String)), p.1 ≠ "") ∧
    (@fetch_post_content ℕ none = ("", []) ∧
      @moderate_post ℕ (fun _ _ => (0 : ℚ))
        ⟨["crypto"], ["bad.com"], [("nytimes.com", "New York Times")], []⟩
        none = ∅) :=
  ⟨by decide, by decide, by decide,
    C5_fetch_failure_empty_labels (fun _ _ => (0 : ℚ))
      ⟨["crypto"], ["bad.com"], [("nytimes.com", "New York Times")], []⟩
      (by decide) (by decide) (by decide)⟩

/-- Claim C6: the label set of the decision engine is unchanged when the
T&S word list, the T&S domain list, the news domain→source mapping
iteration order, or the post image list is reordered. -/
theorem C6_order_invariance {Hash : Type} (dist : Hash → Hash → ℚ)
    (w1 w2 d1 d2 : List String) (n1 n2 : List (String × String))
    (hs : List Hash) (t : String) (imgs1 imgs2 : List (Option Hash))
    (pw : w1.Perm w2) (pd : d1.Perm d2) (pn : n1.Perm n2)
    (pim : imgs1.Perm imgs2) :
    moderate_post_content dist ⟨w1, d1, n1, hs⟩ t imgs1 =
      moderate_post_content dist ⟨w2, d2, n2, hs⟩ t imgs2 := by
  have hlex : lexicon_match t w1 = lexicon_match t w2 :=
    any_eq_of_perm pw (fun w => str_contains t w)
  have hdom : lexicon_match t d1 = lexicon_match t d2 :=
    any_eq_of_perm pd (fun w => str_contains t w)
  have himg : imgs1.any (fun img => is_dog_image dist hs img) =
      imgs2.any (fun img => is_dog_image dist hs img) :=
    any_eq_of_perm pim (fun img => is_dog_image dist hs img)
  have htext : text_labels ⟨w1, d1, n1, hs⟩ t = text_labels ⟨w2, d2, n2, hs⟩ t := by
    apply Finset.ext
    intro x
    rw [text_labels, text_labels]
    simp only [mem_news_foldl, hlex, hdom, pn.mem_iff]
  rw [moderate_post_content, moderate_post_content]
  simp only [htext, himg]

/-- Witness for claim C6 at concrete reorderings of every list. -/
theorem C6_witness :
    ((["alpha", "crypto"] : List String).Perm ["crypto", "alpha"] ∧
     (["x.com", "y.com"] : List String).Perm ["y.com", "x.com"] ∧
     ([("nytimes.com", "New York Times"), ("bbc.com", "BBC")] :
        List (String × String)).Perm
       [("bbc.com", "BBC"), ("nytimes.com", "New York Times")] ∧
     ([some 0, none] : List (Option ℕ)).Perm [none, some 0]) ∧
    moderate_post_content (fun _ _ => (1 : ℚ))
        ⟨["alpha", "crypto"], ["x.com", "y.com"],
         [("nytimes.com", "New York Times"), ("bbc.com", "BBC")], [0]⟩
        "buy crypto on nytimes.com" [some 0, none] =
      moderate_post_content (fun _ _ => (1 : ℚ))
        ⟨["crypto", "alpha"], ["y.com", "x.com"],
         [("bbc.com", "BBC"), ("nytimes.com", "New York Times")], [0]⟩
        "buy crypto on nytimes.com" [none, some 0] :=
  ⟨⟨by decide, by decide, by decide, by decide⟩,
    C6_order_invariance (fun _ _ => (1 : ℚ)) _ _ _ _ _ _ _ _ _ _
      (by decide) (by decide) (by decide) (by decide)⟩

/-- Claim C7: for every category in the fixed enumeration, exactly one
of the four outcomes (non-empty final label, support message sent, flag
sent, none of these) holds for the dispatch of a post. -/
theorem C7_exactly_one_outcome (c : String) (hc : c ∈ CATEGORIES)
    (author uri : String) :
    outcome_count (dispatch c author uri) = 1 := by
  fin_cases hc <;> rfl

/-- Witness for claim C7 at a concrete category of the enumeration. -/
theorem C7_witness : outcome_count (dispatch "Medical News" "alice" "at://p3") = 1 :=
  C7_exactly_one_outcome "Medical News" (by decide) "alice" "at://p3"

/-- Claim C8: when the classifier returns exactly "Risk of Harm to
Self", processing the post sends the support message to the post author,
emits the empty string as the final label (in both output lists), records
the action "Message sent", and flags nothing. -/
theorem C8_risk_of_harm_to_self (post : Post) (st : ProcState) :
    (process_and_label_post (fun _ => "Risk of Harm to Self") post st).messages_sent
      = st.messages_sent ++ [post.author] ∧
    (process_and_label_post (fun _ => "Risk of Harm to Self") post st).labeled_posts
      = st.labeled_posts ++ [(post.uri, [""])] ∧
    (process_and_label_post (fun _ => "Risk of Harm to Self") post st).saved_posts
      = st.saved_posts ++
        [{ uri := post.uri, author := post.author, timestamp := post.created_at,
           content := py_lower post.text, action_taken := "Message sent",
           label := "" }] ∧
    (process_and_label_post (fun _ => "Risk of Harm to Self") post st).flags_sent
      = st.flags_sent := by
  refine ⟨rfl, rfl, rfl, ?_⟩
  simp [process_and_label_post, dispatch]

/-- Claim C9: the decision engine is deterministic — even with the
`temp_image.jpg` file state threaded explicitly, a second run on the
same resolved content, image results and configuration (starting from
the file state the first run left behind) produces the same label set,
namely the label set of the pure engine. -/
theorem C9_engine_deterministic {Hash : Type} (dist : Hash → Hash → ℚ)
    (cfg : LabelerConfig Hash) (t : String) (imgs : List (Option Hash))
    (fs0 : Option Hash) :
    (moderate_post_fs dist cfg t imgs (moderate_post_fs dist cfg t imgs fs0).2).1
      = (moderate_post_fs dist cfg t imgs fs0).1 ∧
    (moderate_post_fs dist cfg t imgs fs0).1 = moderate_post_content dist cfg t imgs := by
  constructor
  · simp [moderate_post_fs, run_images_fs_fst]
  · simp [moderate_post_fs, run_images_fs_fst, moderate_post_content]

/-- Claim C10: processing one post appends exactly one entry to each of
the two output lists, and the two entries agree on the post uri and on
the final label. -/
theorem C10_paired_outputs (classify : String → String) (post : Post)
    (st : ProcState) :
    ((process_and_label_post classify post st).labeled_posts.length =
      st.labeled_posts.length + 1) ∧
    ((process_and_label_post classify post st).saved_posts.length =
      st.saved_posts.length + 1) ∧
    ∃ lbl : String,
      (process_and_label_post classify post st).labeled_posts.getLast? =
        some (post.uri, [lbl]) ∧
      ∃ sp : SavedPost,
        (process_and_label_post classify post st).saved_posts.getLast? = some sp ∧
        sp.uri = post.uri ∧ sp.label = lbl := by
  refine ⟨by simp [process_and_label_post], by simp [process_and_label_post], ?_⟩
  refine ⟨(dispatch (classify (py_lower post.text)) post.author post.uri).true_label,
    ?_, ?_⟩
  · simp [process_and_label_post, List.getLast?_concat]
  · refine ⟨{ uri := post.uri
              author := post.author
              timestamp := post.created_at
              content := py_lower post.text
              action_taken := (dispatch (classify (py_lower post.text))
                post.author post.uri).action_taken
              label := (dispatch (classify (py_lower post.text))
                post.author post.uri).true_label }, ?_, rfl, rfl⟩
    simp [process_and_label_post, List.getLast?_concat]
